import Mathlib

/-!
Verification development for the digiboard whiteboard application.

Part 1 models the recording-session coordinator of
`src/components/Whiteboard/StudentWhiteboard.tsx` as a state machine: the
React component's state hooks and refs become fields of `Comp`, each event
handler becomes a function from a configuration to a `Run` (final
configuration, emitted effects, and the intermediate configurations visible
at each `await` suspension point), and the outcomes of the awaited external
operations (device grant, encoder start/stop, blob retrieval, upload,
persistence) are passed in as parameters.

Part 2 models the stroke-to-video synthesizer (`StrokeRecorder`) as pure
functions over rational arithmetic.
-/

namespace Digiboard

/-- Values captured by the closure of the `onended` handler that
`toggleRecording` installs on the first video track: the `isRecording` and
`isSaving` state values and the `currentTeacherId` of the render in which the
handler was registered (React state reads inside that arrow function are
frozen at registration time, they are not live reads). -/
structure Captured where
  capRec : Bool
  capSaving : Bool
  capTid : Option Nat
deriving DecidableEq, Repr

/-- Outcome of `recorder.getBlob()`: a rejection, or a blob of a given size. -/
inductive BlobRes where
  | fail : BlobRes
  | ok (size : Nat) : BlobRes
deriving DecidableEq, Repr

/-- Outcome of `navigator.mediaDevices.getDisplayMedia`: denial (with a flag
telling whether the error is `NotAllowedError`) or a granted stream whose
tracks are modelled as a list of booleans (`true` = stopped). -/
inductive MediaRes where
  | denied (notAllowed : Bool) : MediaRes
  | granted (tracks : List Bool) : MediaRes
deriving DecidableEq, Repr

/-- Externally observable actions of the component. -/
inductive Effect where
  | alert (msg : String) : Effect
  | consoleLog (msg : String) : Effect
  | consoleError (msg : String) : Effect
  | emitJoin (tid : Nat) : Effect
  | encoderStart : Effect
  | encoderStop : Effect
  | acquireMedia : Effect
  | clearCanvasFx : Effect
deriving DecidableEq, Repr

/-- The component's state: the `useState` hooks (`isTeacherLive`,
`currentTeacherId`, `isRecording`, `isSaving`, `isStarting`), the refs
(`streamRef` as an index into the environment's stream ledger, `recorderRef`,
`lastUpdateRef`), whether the sketch canvas is mounted (`canvasRef.current`
non-null) together with its displayed content, and the `onended` handler
registered on the captured stream's first video track, holding its captured
closure values. -/
structure Comp where
  isTeacherLive : Bool
  currentTeacherId : Option Nat
  isRecording : Bool
  isSaving : Bool
  isStarting : Bool
  streamIdx : Option Nat
  recorder : Option Nat
  lastUpdate : String
  canvasMounted : Bool
  canvasPaths : String
  onEnded : Option Captured
deriving DecidableEq, Repr

/-- Environment ledger of every media stream ever granted; each stream is its
list of tracks, `true` meaning the track has been stopped. -/
structure Env where
  streams : List (List Bool)
deriving DecidableEq, Repr

/-- Result of running one event handler: the final configuration and
environment, the effects emitted, and the configurations observable while the
handler was suspended at each of its `await` points (in order). -/
structure Run where
  final : Comp
  env : Env
  effects : List Effect
  points : List Comp
deriving Repr

/-- The synchronous part of `cleanupRecording` on the component state: clears
both refs and resets the three state flags to `false`. -/
def cleanupComp (c : Comp) : Comp :=
  { c with streamIdx := none, recorder := none,
           isRecording := false, isSaving := false, isStarting := false }

/-- The track-stopping part of `cleanupRecording`: every track of the stream
currently held in `streamRef` (if any) is stopped. -/
def stopTracks (e : Env) (si : Option Nat) : Env :=
  match si with
  | none => e
  | some i => { streams := e.streams.set i ((e.streams.getD i []).map fun _ => true) }

/-- The source's `cleanupRecording`: stops every track of the held stream,
clears `streamRef` and `recorderRef`, and resets `isRecording`, `isSaving`
and `isStarting` to `false`. -/
def cleanupRecording (c : Comp) (e : Env) : Comp × Env :=
  (cleanupComp c, stopTracks e c.streamIdx)

/-- The source's `handleRecordingComplete`. `closRec` and `closTid` are the
`isRecording` and `currentTeacherId` values seen by the invoked closure (the
live values for calls from `toggleRecording` / the socket handlers, the
registration-time captures for a call from the `onended` handler). The guard
at entry returns without any cleanup or alert when the recorder ref is empty,
the closure's teacher id is empty, or the closure's `isRecording` is false.
Otherwise `isSaving` is set, and the blob / upload / persistence steps run
with their outcomes `b`, `u`, `p`; every failure is caught, alerts the user,
and the `finally` block runs `cleanupRecording`. -/
def handleRecordingComplete (closRec : Bool) (closTid : Option Nat)
    (b : BlobRes) (u : Bool) (p : Bool) (c : Comp) (e : Env) : Run :=
  if c.recorder.isNone || closTid.isNone || !closRec then
    { final := c, env := e,
      effects := [Effect.consoleLog ("Cannot complete recording - missing requirements")],
      points := [] }
  else
    let c1 := { c with isSaving := true }
    match b with
    | BlobRes.fail =>
      { final := cleanupComp c1, env := stopTracks e c1.streamIdx,
        effects := [Effect.consoleError ("Error saving recording"),
                    Effect.alert ("Failed to save recording. Please try again.")],
        points := [c1] }
    | BlobRes.ok 0 =>
      { final := cleanupComp c1, env := stopTracks e c1.streamIdx,
        effects := [Effect.consoleError ("Error saving recording"),
                    Effect.alert ("Failed to save recording. Please try again.")],
        points := [c1] }
    | BlobRes.ok (_ + 1) =>
      if !u then
        { final := cleanupComp c1, env := stopTracks e c1.streamIdx,
          effects := [Effect.consoleError ("Error saving recording"),
                      Effect.alert ("Failed to save recording. Please try again.")],
          points := [c1, c1] }
      else if !p then
        { final := cleanupComp c1, env := stopTracks e c1.streamIdx,
          effects := [Effect.consoleError ("Error saving recording"),
                      Effect.alert ("Failed to save recording. Please try again.")],
          points := [c1, c1, c1] }
      else
        { final := cleanupComp c1, env := stopTracks e c1.streamIdx,
          effects := [Effect.consoleLog ("Session saved successfully"),
                      Effect.alert ("Session recorded and saved successfully!")],
          points := [c1, c1, c1] }

/-- The source's `toggleRecording`. The parameters are the outcomes of the
awaited external operations: `m` for `getDisplayMedia`, `st` for
`startRecording`, `sp` for `stopRecording`, and `b`, `u`, `p` for the
completion pipeline. Mirrors the source exactly: alert-and-return when the
teacher is not live; when `isRecording`, stop the recorder and run
`handleRecordingComplete` (cleanup on a stop failure, cleanup when no
recorder is held); otherwise set `isStarting`, acquire the capture device,
create and start the recorder, mark `isRecording`, and install the `onended`
handler with the closure's captured state values — on any failure run
`cleanupRecording` and alert. -/
def toggleRecording (m : MediaRes) (st : Bool) (sp : Bool)
    (b : BlobRes) (u : Bool) (p : Bool) (c : Comp) (e : Env) : Run :=
  if !c.isTeacherLive then
    { final := c, env := e,
      effects := [Effect.alert ("Cannot record when teacher is not live")],
      points := [] }
  else if c.isRecording then
    if c.recorder.isNone then
      { final := cleanupComp c, env := stopTracks e c.streamIdx,
        effects := [Effect.consoleLog ("No recorder found to stop")],
        points := [] }
    else if !sp then
      { final := cleanupComp c, env := stopTracks e c.streamIdx,
        effects := [Effect.encoderStop, Effect.consoleError ("Error stopping recording")],
        points := [c] }
    else
      let r := handleRecordingComplete c.isRecording c.currentTeacherId b u p c e
      { final := r.final, env := r.env,
        effects := Effect.encoderStop :: r.effects,
        points := c :: r.points }
  else
    let c1 := { c with isStarting := true }
    match m with
    | MediaRes.denied notAllowed =>
      { final := cleanupComp c1, env := stopTracks e c1.streamIdx,
        effects := [Effect.acquireMedia, Effect.consoleError ("Error starting recording"),
                    Effect.alert (if notAllowed then "Please allow screen recording to continue."
                                  else "Failed to start recording. Please try again.")],
        points := [c1] }
    | MediaRes.granted tracks =>
      let idx := e.streams.length
      let e1 : Env := { streams := e.streams ++ [tracks] }
      let c2 := { c1 with streamIdx := some idx, recorder := some idx }
      if !st then
        { final := cleanupComp c2, env := stopTracks e1 c2.streamIdx,
          effects := [Effect.acquireMedia, Effect.encoderStart,
                      Effect.consoleError ("Error starting recording"),
                      Effect.alert ("Failed to start recording. Please try again.")],
          points := [c1, c2] }
      else
        { final := { c2 with isRecording := true, isStarting := false,
                             onEnded := some ⟨c.isRecording, c.isSaving, c.currentTeacherId⟩ },
          env := e1,
          effects := [Effect.acquireMedia, Effect.encoderStart],
          points := [c1, c2] }

/-- The source's `handleTeacherOnline`: marks the teacher live, stores the
teacher id, and emits `joinTeacherRoom`. It does not touch `lastUpdateRef`
or the canvas. -/
def handleTeacherOnline (tid : Nat) (c : Comp) (e : Env) : Run :=
  { final := { c with isTeacherLive := true, currentTeacherId := some tid },
    env := e,
    effects := [Effect.emitJoin tid],
    points := [] }

/-- Shared tail of `handleTeacherOffline`: clear liveness and teacher id and,
when the canvas is mounted, clear it. -/
def offlineTail (c : Comp) : Comp × List Effect :=
  let c1 := { c with isTeacherLive := false, currentTeacherId := none }
  if c1.canvasMounted then ({ c1 with canvasPaths := "" }, [Effect.clearCanvasFx])
  else (c1, [])

/-- The source's `handleTeacherOffline`: when `isRecording && !isSaving` and a
recorder is held, await `stopRecording` (a rejection there is uncaught, so the
handler aborts with nothing released and nothing alerted) and then run
`handleRecordingComplete`; afterwards — or directly when the guard fails —
clear liveness, clear the teacher id, and clear the mounted canvas. -/
def handleTeacherOffline (sp : Bool) (b : BlobRes) (u : Bool) (p : Bool)
    (c : Comp) (e : Env) : Run :=
  if c.isRecording && !c.isSaving && !c.recorder.isNone then
    if !sp then
      { final := c, env := e, effects := [Effect.encoderStop], points := [c] }
    else
      let r := handleRecordingComplete c.isRecording c.currentTeacherId b u p c e
      let t := offlineTail r.final
      { final := t.1, env := r.env,
        effects := Effect.encoderStop :: r.effects ++ t.2,
        points := c :: r.points }
  else
    let t := offlineTail c
    { final := t.1, env := e, effects := t.2, points := [] }

/-- The source's `handleDisconnect`: the same guarded stop sequence as
`handleTeacherOffline`, with no trailing teardown (and the same uncaught
rejection when `stopRecording` fails). -/
def handleDisconnect (sp : Bool) (b : BlobRes) (u : Bool) (p : Bool)
    (c : Comp) (e : Env) : Run :=
  if c.isRecording && !c.isSaving && !c.recorder.isNone then
    if !sp then
      { final := c, env := e, effects := [Effect.encoderStop], points := [c] }
    else
      let r := handleRecordingComplete c.isRecording c.currentTeacherId b u p c e
      { final := r.final, env := r.env,
        effects := Effect.encoderStop :: r.effects,
        points := c :: r.points }
  else
    { final := c, env := e, effects := [], points := [] }

/-- The source's `handleWhiteboardUpdate`: returns immediately when the canvas
ref is empty; otherwise writes the incoming serialized data to
`lastUpdateRef`, clears the canvas, and (when the data is non-trivial) parses
and loads it — a parse failure is caught and only logged, the snapshot write
having already happened. `parses` is the outcome of `JSON.parse`. -/
def handleWhiteboardUpdate (data : String) (parses : Bool) (c : Comp) (e : Env) : Run :=
  if !c.canvasMounted then
    { final := c, env := e, effects := [], points := [] }
  else
    let c1 := { c with lastUpdate := data, canvasPaths := "" }
    if data ≠ "" ∧ data ≠ "[]" then
      if parses then
        { final := { c1 with canvasPaths := data }, env := e,
          effects := [Effect.clearCanvasFx], points := [c1] }
      else
        { final := c1, env := e,
          effects := [Effect.clearCanvasFx, Effect.consoleError ("Error updating whiteboard")],
          points := [c1] }
    else
      { final := c1, env := e, effects := [Effect.clearCanvasFx], points := [c1] }

/-- Firing of the `onended` handler installed by `toggleRecording`. If no
handler is installed nothing happens. Otherwise the handler's guard reads the
captured closure values (not the live state); only when the captured
`isRecording` is true and the captured `isSaving` is false does it stop the
recorder and run the registration-time `handleRecordingComplete` closure (a
`stopRecording` rejection is uncaught and aborts the handler). -/
def onStreamEnded (sp : Bool) (b : BlobRes) (u : Bool) (p : Bool)
    (c : Comp) (e : Env) : Run :=
  match c.onEnded with
  | none => { final := c, env := e, effects := [], points := [] }
  | some cap =>
    if cap.capRec && !cap.capSaving then
      if c.recorder.isNone then
        { final := c, env := e,
          effects := [Effect.consoleLog ("Screen share ended by user")],
          points := [] }
      else if !sp then
        { final := c, env := e,
          effects := [Effect.consoleLog ("Screen share ended by user"), Effect.encoderStop],
          points := [c] }
      else
        let r := handleRecordingComplete cap.capRec cap.capTid b u p c e
        { final := r.final, env := r.env,
          effects := Effect.consoleLog ("Screen share ended by user") :: Effect.encoderStop :: r.effects,
          points := c :: r.points }
    else
      { final := c, env := e,
        effects := [Effect.consoleLog ("Screen share ended by user")],
        points := [] }

/-- An environment event delivered to the component, carrying the outcomes of
whatever external operations its handler awaits. `mount` models the sketch
canvas ref becoming set or cleared across renders. -/
inductive Event where
  | toggle (m : MediaRes) (st : Bool) (sp : Bool) (b : BlobRes) (u : Bool) (p : Bool) : Event
  | online (tid : Nat) : Event
  | offline (sp : Bool) (b : BlobRes) (u : Bool) (p : Bool) : Event
  | disconnect (sp : Bool) (b : BlobRes) (u : Bool) (p : Bool) : Event
  | update (data : String) (parses : Bool) : Event
  | ended (sp : Bool) (b : BlobRes) (u : Bool) (p : Bool) : Event
  | mount (flag : Bool) : Event
deriving Repr

/-- Dispatch one event to its handler. -/
def run (ev : Event) (c : Comp) (e : Env) : Run :=
  match ev with
  | Event.toggle m st sp b u p => toggleRecording m st sp b u p c e
  | Event.online tid => handleTeacherOnline tid c e
  | Event.offline sp b u p => handleTeacherOffline sp b u p c e
  | Event.disconnect sp b u p => handleDisconnect sp b u p c e
  | Event.update data parses => handleWhiteboardUpdate data parses c e
  | Event.ended sp b u p => onStreamEnded sp b u p c e
  | Event.mount flag => { final := { c with canvasMounted := flag }, env := e, effects := [], points := [] }

/-- The component's initial state: nothing live, nothing held, snapshot is the
initial `'[]'`. -/
def init : Comp :=
  { isTeacherLive := false, currentTeacherId := none,
    isRecording := false, isSaving := false, isStarting := false,
    streamIdx := none, recorder := none,
    lastUpdate := "[]", canvasMounted := false, canvasPaths := "",
    onEnded := none }

/-- Initially no stream has been granted. -/
def initEnv : Env := { streams := [] }

/-- Configurations and environments reachable by a sequence of complete event
handler runs from the initial state. -/
inductive Reach : Comp → Env → Prop where
  | init : Reach init initEnv
  | step {c : Comp} {e : Env} (h : Reach c e) (ev : Event) :
      Reach (run ev c e).final (run ev c e).env

/-- A configuration is a reachable point if it is reachable between handler
runs, or observable at a suspension point of a handler run from a reachable
configuration. -/
def ReachPoint (x : Comp) : Prop :=
  (∃ e, Reach x e) ∨ ∃ c e ev, Reach c e ∧ x ∈ (run ev c e).points

/-- Resource/state coupling actually maintained by the component: the stream
and recorder refs are set and cleared together; they are both set whenever
`isRecording` or `isSaving` holds; and they are both empty in the idle state
(all three flags false). During `starting` they may be either (empty before
the device grant, set after it). -/
def StateInv (c : Comp) : Prop :=
  c.streamIdx.isSome = c.recorder.isSome ∧
  ((c.isRecording = true ∨ c.isSaving = true) → c.recorder.isSome = true) ∧
  (c.isRecording = false ∧ c.isSaving = false ∧ c.isStarting = false →
     c.streamIdx = none ∧ c.recorder = none)

/-- The configuration right after a successful start (teacher 0 online, one
single-track stream granted, encoder started): recording, holding stream and
recorder 0, with the `onended` handler installed and its closure having
captured `isRecording = false`, `isSaving = false`. -/
def recAfterStart : Comp :=
  { isTeacherLive := true, currentTeacherId := some 0,
    isRecording := true, isSaving := false, isStarting := false,
    streamIdx := some 0, recorder := some 0,
    lastUpdate := "[]", canvasMounted := false, canvasPaths := "",
    onEnded := some ⟨false, false, some 0⟩ }

/-- The environment after that start: one granted stream with one live track. -/
def recEnv : Env := { streams := [[false]] }

/-- The configuration observable while `toggleRecording`'s start path is
suspended at `await recorder.startRecording()`: still `starting`
(`isStarting = true`, `isRecording = false`) but already holding the granted
stream and the created recorder. -/
def midStartConfig : Comp :=
  { isTeacherLive := true, currentTeacherId := some 0,
    isRecording := false, isSaving := false, isStarting := true,
    streamIdx := some 0, recorder := some 0,
    lastUpdate := "[]", canvasMounted := false, canvasPaths := "",
    onEnded := none }

/-- A configuration in the `saving` state (`isRecording` is still true, as in
the source, where `handleRecordingComplete` sets `isSaving` without clearing
`isRecording`). -/
def savingConfig : Comp :=
  { isTeacherLive := true, currentTeacherId := some 0,
    isRecording := true, isSaving := true, isStarting := false,
    streamIdx := some 0, recorder := some 0,
    lastUpdate := "[]", canvasMounted := false, canvasPaths := "",
    onEnded := some ⟨false, false, some 0⟩ }

/-- A configuration in the `starting` state, before the device grant. -/
def startingConfig : Comp :=
  { isTeacherLive := true, currentTeacherId := some 0,
    isRecording := false, isSaving := false, isStarting := true,
    streamIdx := none, recorder := none,
    lastUpdate := "[]", canvasMounted := false, canvasPaths := "",
    onEnded := none }

/-- A reachable configuration holding a stale snapshot: teacher 1 came online,
the canvas mounted, an update with serialized data `"stale"` arrived. -/
def staleConfig : Comp :=
  { isTeacherLive := true, currentTeacherId := some 1,
    isRecording := false, isSaving := false, isStarting := false,
    streamIdx := none, recorder := none,
    lastUpdate := "stale", canvasMounted := true, canvasPaths := "stale",
    onEnded := none }

/-- A 2D point of a stroke polyline (`{ x, y }` in the source). Coordinates
are modelled as rationals. -/
structure Pt where
  x : ℚ
  y : ℚ
deriving DecidableEq, Repr

/-- One element of the `StrokePath.paths` array of the source: a pen stroke
with draw mode, color, width, and its ordered point list (the inner `paths`
array). -/
structure SPath where
  drawMode : Bool
  strokeColor : String
  strokeWidth : ℚ
  points : List Pt
deriving DecidableEq, Repr

/-- What one `drawPath` call paints: the stroke's style and the prefix of its
points actually traced before `stroke()` is called. -/
structure Rendered where
  strokeColor : String
  strokeWidth : ℚ
  pts : List Pt
deriving DecidableEq, Repr

/-- A rendered frame: the white background fill followed by the strokes
painted over it in order (`createFrame` paints the background, then each
stroke prefix). A frame with an empty `strokes` list is the blank background
frame. -/
structure Frame where
  strokes : List Rendered
deriving DecidableEq, Repr

/-- Number of points traced by `drawPath`:
`Math.floor(path.paths.length * progress)` in the source. -/
def pointCount (len : Nat) (progress : ℚ) : Nat :=
  (⌊(len : ℚ) * progress⌋).toNat

/-- The per-stroke reveal fraction computed inside `createFrame`:
`progress > (index + 1) / paths.length ? 1 : progress < index / paths.length
? 0 : (progress * paths.length) - index`. -/
def pathProgress (progress : ℚ) (index n : Nat) : ℚ :=
  if progress > ((index : ℚ) + 1) / (n : ℚ) then 1
  else if progress < (index : ℚ) / (n : ℚ) then 0
  else progress * (n : ℚ) - (index : ℚ)

/-- The source's `drawPath`: returns immediately (painting nothing) when the
stroke has no points; otherwise traces the first `pointCount` points with the
stroke's own style and strokes them. -/
def drawPath (p : SPath) (progress : ℚ) : Option Rendered :=
  if p.points.length = 0 then none
  else some { strokeColor := p.strokeColor, strokeWidth := p.strokeWidth,
              pts := p.points.take (pointCount p.points.length progress) }

/-- The source's `createFrame`: fills the background white, then for each
stroke (in original order, carrying its index) computes its reveal fraction
and draws the corresponding prefix. -/
def createFrame (paths : List SPath) (progress : ℚ) : Frame :=
  { strokes := paths.enum.filterMap fun ip =>
      drawPath ip.2 (pathProgress progress ip.1 paths.length) }

/-- The hard-coded frame rate of `StrokeRecorder`. -/
def frameRate : Nat := 30

/-- The hard-coded output length in seconds (`frameRate * 5; // 5 seconds
video`). -/
def videoSeconds : Nat := 5

/-- `totalFrames = this.frameRate * 5` of `recordStrokes`. -/
def totalFrames : Nat := frameRate * videoSeconds

/-- The encoded container produced by the ffmpeg collaborator, modelled by the
frame count composed and the configured frame rate. -/
structure VideoOut where
  frameCount : Nat
  rate : Nat
deriving DecidableEq, Repr

/-- Result of `recordStrokes`: the frames generated (in generation order), the
frame indices in the order the files are written to the encoder, and the
encoded output. -/
structure RecordResult where
  frames : List Frame
  written : List Nat
  video : VideoOut
deriving DecidableEq, Repr

/-- The source's `recordStrokes`: generates one frame for every index `i` in
`[0, totalFrames]` at progress `i / totalFrames`, writes `frame{i}.png` for
`i = 0 .. frames.length - 1` in order, and runs the encoder at `frameRate`
over all written frames to produce the output container. -/
def recordStrokes (paths : List SPath) : RecordResult :=
  let frames := (List.range (totalFrames + 1)).map fun i =>
    createFrame paths ((i : ℚ) / (totalFrames : ℚ))
  { frames := frames,
    written := List.range frames.length,
    video := { frameCount := frames.length, rate := frameRate } }

theorem stateInv_cleanupComp (c : Comp) : StateInv (cleanupComp c) := by
  simp [StateInv, cleanupComp]

theorem stateInv_mk_isSaving (c : Comp) (h : StateInv c)
    (hrec : c.recorder.isSome = true) : StateInv { c with isSaving := true } := by
  obtain ⟨h1, _, _⟩ := h
  exact ⟨h1, fun _ => hrec, by simp⟩

theorem hRC_guard_fail (closRec : Bool) (closTid : Option Nat) (b : BlobRes)
    (u p : Bool) (c : Comp) (e : Env)
    (hg : (c.recorder.isNone || closTid.isNone || !closRec) = true) :
    handleRecordingComplete closRec closTid b u p c e
      = { final := c, env := e,
          effects := [Effect.consoleLog ("Cannot complete recording - missing requirements")],
          points := [] } := by
  simp only [handleRecordingComplete, hg, if_true]

theorem hRC_run_char (closTid : Option Nat) (b : BlobRes) (u p : Bool)
    (c : Comp) (e : Env) (v w : Nat)
    (hrec : c.recorder = some v) (htid : closTid = some w) :
    (handleRecordingComplete true closTid b u p c e).final = cleanupComp c ∧
    (handleRecordingComplete true closTid b u p c e).env = stopTracks e c.streamIdx ∧
    (∀ x ∈ (handleRecordingComplete true closTid b u p c e).points,
        x = { c with isSaving := true }) ∧
    (∃ msg, Effect.alert msg ∈ (handleRecordingComplete true closTid b u p c e).effects) := by
  have hcl : cleanupComp { c with isSaving := true } = cleanupComp c := rfl
  simp only [handleRecordingComplete, hrec, htid, Option.isNone_some, Bool.not_true,
    Bool.or_self, Bool.or_false, Bool.false_or, if_false]
  rcases b with _ | n
  · exact ⟨hcl, rfl, by intro x hx; simpa using hx, ⟨"Failed to save recording. Please try again.", by simp⟩⟩
  · rcases n with _ | m
    · exact ⟨hcl, rfl, by intro x hx; simpa using hx, ⟨"Failed to save recording. Please try again.", by simp⟩⟩
    · rcases u with _ | _
      · exact ⟨hcl, rfl, by intro x hx; simpa using hx, ⟨"Failed to save recording. Please try again.", by simp⟩⟩
      · rcases p with _ | _
        · exact ⟨hcl, rfl, by intro x hx; simpa using hx, ⟨"Failed to save recording. Please try again.", by simp⟩⟩
        · exact ⟨hcl, rfl, by intro x hx; simpa using hx, ⟨"Session recorded and saved successfully!", by simp⟩⟩

theorem stateInv_hRC (closRec : Bool) (closTid : Option Nat) (b : BlobRes)
    (u p : Bool) (c : Comp) (e : Env) (h : StateInv c) :
    (∀ x ∈ (handleRecordingComplete closRec closTid b u p c e).points, StateInv x) ∧
    StateInv (handleRecordingComplete closRec closTid b u p c e).final := by
  by_cases hg : (c.recorder.isNone || closTid.isNone || !closRec) = true
  · rw [hRC_guard_fail closRec closTid b u p c e hg]
    exact ⟨by intro x hx; simp at hx, h⟩
  · simp only [Bool.or_eq_true, not_or, Bool.not_eq_true, Option.isNone_eq_false_iff,
      Bool.not_eq_false] at hg
    obtain ⟨⟨hr0, ht0⟩, hc0⟩ := hg
    obtain ⟨v, hv⟩ := Option.isSome_iff_exists.mp hr0
    obtain ⟨w, hw⟩ := Option.isSome_iff_exists.mp ht0
    have hc1 : closRec = true := by simpa using hc0
    subst hc1
    have hc := hRC_run_char closTid b u p c e v w hv hw
    refine ⟨fun x hx => ?_, by rw [hc.1]; exact stateInv_cleanupComp c⟩
    rw [hc.2.2.1 x hx]
    exact stateInv_mk_isSaving c h (by simp [hv])

theorem stateInv_offlineTail (c : Comp) (h : StateInv c) : StateInv (offlineTail c).1 := by
  simp only [offlineTail]
  split <;> simpa [StateInv] using h

theorem stateInv_run (ev : Event) (c : Comp) (e : Env) (h : StateInv c) :
    (∀ x ∈ (run ev c e).points, StateInv x) ∧ StateInv (run ev c e).final := by
  have hstart : StateInv { c with isStarting := true } := by
    obtain ⟨h1, h2, _⟩ := h
    exact ⟨h1, h2, by simp⟩
  have hmid : StateInv { c with isStarting := true, streamIdx := some e.streams.length, recorder := some e.streams.length } :=
    ⟨by simp, by simp, by simp⟩
  cases ev with
  | toggle m st sp b u p =>
    simp only [run, toggleRecording]
    split
    · exact ⟨by intro x hx; simp at hx, h⟩
    · split
      · split
        · exact ⟨by intro x hx; simp at hx, stateInv_cleanupComp _⟩
        · split
          · refine ⟨?_, stateInv_cleanupComp _⟩
            intro x hx
            simp only [List.mem_singleton] at hx
            subst hx; exact h
          · have hr := stateInv_hRC c.isRecording c.currentTeacherId b u p c e h
            refine ⟨?_, hr.2⟩
            intro x hx
            simp only [List.mem_cons] at hx
            rcases hx with rfl | hx
            · exact h
            · exact hr.1 x hx
      · split
        · refine ⟨?_, stateInv_cleanupComp _⟩
          intro x hx
          simp only [List.mem_singleton] at hx
          subst hx; exact hstart
        · split
          · refine ⟨?_, stateInv_cleanupComp _⟩
            intro x hx
            simp only [List.mem_cons, List.not_mem_nil, or_false] at hx
            rcases hx with rfl | rfl
            · exact hstart
            · exact hmid
          · refine ⟨?_, ⟨by simp, by simp, by simp⟩⟩
            intro x hx
            simp only [List.mem_cons, List.not_mem_nil, or_false] at hx
            rcases hx with rfl | rfl
            · exact hstart
            · exact hmid
  | online tid =>
    simp only [run, handleTeacherOnline]
    exact ⟨by intro x hx; simp at hx, by simpa [StateInv] using h⟩
  | offline sp b u p =>
    simp only [run, handleTeacherOffline]
    split
    · split
      · refine ⟨?_, h⟩
        intro x hx
        simp only [List.mem_singleton] at hx
        subst hx; exact h
      · have hr := stateInv_hRC c.isRecording c.currentTeacherId b u p c e h
        refine ⟨?_, stateInv_offlineTail _ hr.2⟩
        intro x hx
        simp only [List.mem_cons] at hx
        rcases hx with rfl | hx
        · exact h
        · exact hr.1 x hx
    · exact ⟨by intro x hx; simp at hx, stateInv_offlineTail _ h⟩
  | disconnect sp b u p =>
    simp only [run, handleDisconnect]
    split
    · split
      · refine ⟨?_, h⟩
        intro x hx
        simp only [List.mem_singleton] at hx
        subst hx; exact h
      · have hr := stateInv_hRC c.isRecording c.currentTeacherId b u p c e h
        refine ⟨?_, hr.2⟩
        intro x hx
        simp only [List.mem_cons] at hx
        rcases hx with rfl | hx
        · exact h
        · exact hr.1 x hx
    · exact ⟨by intro x hx; simp at hx, h⟩
  | update data parses =>
    have hupd : StateInv { c with lastUpdate := data, canvasPaths := "" } := by
      simpa [StateInv] using h
    have hupd2 : StateInv { c with lastUpdate := data, canvasPaths := data } := by
      simpa [StateInv] using h
    simp only [run, handleWhiteboardUpdate]
    split
    · exact ⟨by intro x hx; simp at hx, h⟩
    · split
      · split
        · refine ⟨?_, hupd2⟩
          intro x hx
          simp only [List.mem_singleton] at hx
          subst hx; exact hupd
        · refine ⟨?_, hupd⟩
          intro x hx
          simp only [List.mem_singleton] at hx
          subst hx; exact hupd
      · refine ⟨?_, hupd⟩
        intro x hx
        simp only [List.mem_singleton] at hx
        subst hx; exact hupd
  | ended sp b u p =>
    simp only [run, onStreamEnded]
    split
    · exact ⟨by intro x hx; simp at hx, h⟩
    · rename_i cap hcap
      split
      · split
        · exact ⟨by intro x hx; simp at hx, h⟩
        · split
          · refine ⟨?_, h⟩
            intro x hx
            simp only [List.mem_singleton] at hx
            subst hx; exact h
          · have hr := stateInv_hRC cap.capRec cap.capTid b u p c e h
            refine ⟨?_, hr.2⟩
            intro x hx
            simp only [List.mem_cons] at hx
            rcases hx with rfl | hx
            · exact h
            · exact hr.1 x hx
      · exact ⟨by intro x hx; simp at hx, h⟩
  | mount flag =>
    simp only [run]
    exact ⟨by intro x hx; simp at hx, by simpa [StateInv] using h⟩

theorem stateInv_reach {c : Comp} {e : Env} (h : Reach c e) : StateInv c := by
  induction h with
  | init => exact ⟨by simp [init], by simp [init], by simp [init]⟩
  | step h ev ih => exact (stateInv_run ev _ _ ih).2

theorem stateInv_reachPoint {x : Comp} (h : ReachPoint x) : StateInv x := by
  rcases h with ⟨e, he⟩ | ⟨c, e, ev, hr, hm⟩
  · exact stateInv_reach he
  · exact (stateInv_run ev c e (stateInv_reach hr)).1 x hm

/-- C1: the claim fails on the code. The state `recAfterStart` — recording,
reached by teacher 0 coming online and a successful `toggleRecording` start —
carries an `onended` handler whose captured closure has `isRecording = false`
(the value at registration time, when the start branch was entered). Because
the handler's guard reads that captured value instead of the current
recording state, firing the device end-of-stream event leaves the
configuration unchanged and never stops the encoder, for every outcome of
the stop pipeline: the automatic `recording → stopping` transition the spec
requires never happens. -/
theorem c1_end_of_stream_autostop_never_fires :
    (∃ e, Reach recAfterStart e) ∧
    recAfterStart.isRecording = true ∧
    recAfterStart.isSaving = false ∧
    recAfterStart.onEnded = some ⟨false, false, some 0⟩ ∧
    ∀ sp b u p, (run (Event.ended sp b u p) recAfterStart recEnv).final = recAfterStart ∧
      Effect.encoderStop ∉ (run (Event.ended sp b u p) recAfterStart recEnv).effects := by
  refine ⟨⟨recEnv, ?_⟩, rfl, rfl, rfl, ?_⟩
  · have h := Reach.step (Reach.step Reach.init (Event.online 0))
      (Event.toggle (MediaRes.granted [false]) true true BlobRes.fail true true)
    have e1 : (run (Event.toggle (MediaRes.granted [false]) true true BlobRes.fail true true)
        (run (Event.online 0) init initEnv).final (run (Event.online 0) init initEnv).env).final
        = recAfterStart := by decide
    have e2 : (run (Event.toggle (MediaRes.granted [false]) true true BlobRes.fail true true)
        (run (Event.online 0) init initEnv).final (run (Event.online 0) init initEnv).env).env
        = recEnv := by decide
    rw [← e1, ← e2]
    exact h
  · intro sp b u p
    exact ⟨by simp [run, onStreamEnded, recAfterStart],
           by simp [run, onStreamEnded, recAfterStart]⟩

/-- C2 is refuted at a concrete reachable point: `midStartConfig`, the
configuration observable while the start path is suspended at
`await recorder.startRecording()`, is a reachable point at which the state is
`starting` (`isStarting = true`, not recording, not saving) and yet both the
media stream and the encoder handle are already non-null — contradicting the
claim that both are null whenever the state is idle or starting. -/
theorem c2_counterexample_mid_start_holds_resources :
    ReachPoint midStartConfig ∧
    midStartConfig.isStarting = true ∧
    midStartConfig.isRecording = false ∧
    midStartConfig.isSaving = false ∧
    midStartConfig.streamIdx = some 0 ∧
    midStartConfig.recorder = some 0 := by
  refine ⟨Or.inr ?_, rfl, rfl, rfl, rfl, rfl⟩
  exact ⟨(run (Event.online 0) init initEnv).final, (run (Event.online 0) init initEnv).env,
    Event.toggle (MediaRes.granted [false]) true true BlobRes.fail true true,
    Reach.step Reach.init (Event.online 0), by decide⟩

/-- C2 (amended): at every reachable point of every operation, the media
stream ref and the encoder handle are set and cleared together; both are
non-null whenever the state is in {recording, stopping, saving} (that is,
whenever `isRecording` or `isSaving` holds); and both are null while idle
(all three flags false). During `starting` they may be non-null — after the
capture device has been granted mid-start — which is the one deviation from
the claimed iff (witnessed by the counterexample). -/
theorem c2_amended_resource_invariant (x : Comp) (h : ReachPoint x) :
    x.streamIdx.isSome = x.recorder.isSome ∧
    ((x.isRecording = true ∨ x.isSaving = true) →
       x.streamIdx.isSome = true ∧ x.recorder.isSome = true) ∧
    (x.isRecording = false ∧ x.isSaving = false ∧ x.isStarting = false →
       x.streamIdx = none ∧ x.recorder = none) := by
  obtain ⟨h1, h2, h3⟩ := stateInv_reachPoint h
  exact ⟨h1, fun hc => ⟨by rw [h1]; exact h2 hc, h2 hc⟩, h3⟩

/-- Witness for the amended C2 invariant, instantiated at the initial
configuration (reachable by the empty run sequence). -/
theorem c2_amended_resource_invariant_witness :
    init.streamIdx.isSome = init.recorder.isSome ∧
    ((init.isRecording = true ∨ init.isSaving = true) →
       init.streamIdx.isSome = true ∧ init.recorder.isSome = true) ∧
    (init.isRecording = false ∧ init.isSaving = false ∧ init.isStarting = false →
       init.streamIdx = none ∧ init.recorder = none) :=
  c2_amended_resource_invariant init (Or.inl ⟨initEnv, Reach.init⟩)

/-- C3: the claim fails on the code: `toggleRecording` has no internal guard
on `isStarting` or `isSaving`. Invoked in a `starting` configuration it runs
the start path again and acquires a second capture device (the stream ref
ends up set); invoked in a `saving` configuration (where `isRecording` is
still true) it takes the stop branch again, stopping the encoder a second
time and changing the state. Only the UI-level disabled predicate
`isSaving || isStarting` prevents the starting/saving invocations, and it
does not cover the `stopping` window. -/
theorem c3_toggle_mid_transition_not_noop :
    (Effect.acquireMedia ∈ (toggleRecording (MediaRes.granted [false]) true true
        BlobRes.fail true true startingConfig initEnv).effects ∧
     (toggleRecording (MediaRes.granted [false]) true true BlobRes.fail true true
        startingConfig initEnv).final.streamIdx = some 0) ∧
    (Effect.encoderStop ∈ (toggleRecording (MediaRes.granted []) true true
        (BlobRes.ok 1) true true savingConfig recEnv).effects ∧
     (toggleRecording (MediaRes.granted []) true true (BlobRes.ok 1) true true
        savingConfig recEnv).final ≠ savingConfig) := by
  exact ⟨⟨by decide, by decide⟩, ⟨by decide, by decide⟩⟩

theorem stopTracks_allStopped (e : Env) (si : Nat) :
    ∀ t ∈ (stopTracks e (some si)).streams.getD si [], t = true := by
  intro t ht
  simp only [stopTracks] at ht
  by_cases hsi : si < e.streams.length
  · rw [List.getD_eq_getElem?_getD, List.getElem?_set_self hsi] at ht
    simp only [Option.getD_some] at ht
    simp only [List.mem_map] at ht
    obtain ⟨_, _, rfl⟩ := ht
    rfl
  · rw [List.set_eq_of_length_le (Nat.le_of_not_lt hsi),
        List.getD_eq_default _ _ (Nat.le_of_not_lt hsi)] at ht
    simp at ht

/-- C4: a `presenceInactive` (teacher offline) event received while recording
and not saving — with the recorder and stream held and a teacher id set, as
at every reachable recording state — results, once the stop sequence
completes (`stopRecording` resolves), in the idle state with the stream
reference cleared, every track of the held stream stopped, and the encoder
handle released, for every outcome of the blob, upload and persistence
steps. -/
theorem c4_offline_while_recording_releases_all
    (c : Comp) (e : Env) (si v w : Nat) (b : BlobRes) (u p : Bool)
    (hrec : c.isRecording = true) (hsav : c.isSaving = false)
    (hrd : c.recorder = some v) (htid : c.currentTeacherId = some w)
    (hs : c.streamIdx = some si) :
    (handleTeacherOffline true b u p c e).final.isRecording = false ∧
    (handleTeacherOffline true b u p c e).final.isSaving = false ∧
    (handleTeacherOffline true b u p c e).final.isStarting = false ∧
    (handleTeacherOffline true b u p c e).final.streamIdx = none ∧
    (handleTeacherOffline true b u p c e).final.recorder = none ∧
    (handleTeacherOffline true b u p c e).final.isTeacherLive = false ∧
    ∀ t ∈ (handleTeacherOffline true b u p c e).env.streams.getD si [], t = true := by
  have hchar := hRC_run_char c.currentTeacherId b u p c e v w hrd htid
  have hguard : (c.isRecording && !c.isSaving && !c.recorder.isNone) = true := by
    simp [hrec, hsav, hrd]
  have hrc : handleRecordingComplete c.isRecording c.currentTeacherId b u p c e
      = handleRecordingComplete true c.currentTeacherId b u p c e := by rw [hrec]
  simp only [handleTeacherOffline]
  rw [if_pos hguard, if_neg (by simp : ¬((!true : Bool) = true))]
  simp only [hrc, hchar.1, hchar.2.1]
  refine ⟨?_, ?_, ?_, ?_, ?_, ?_, ?_⟩
  · simp only [offlineTail]; split <;> simp [cleanupComp]
  · simp only [offlineTail]; split <;> simp [cleanupComp]
  · simp only [offlineTail]; split <;> simp [cleanupComp]
  · simp only [offlineTail]; split <;> simp [cleanupComp]
  · simp only [offlineTail]; split <;> simp [cleanupComp]
  · simp only [offlineTail]; split <;> simp [cleanupComp]
  · rw [hs]
    exact stopTracks_allStopped e si

/-- Witness for C4 at a concrete input: the reachable recording state
`recAfterStart` with its single-track stream, a failing blob retrieval, and
successful upload/persistence outcomes. -/
theorem c4_offline_while_recording_releases_all_witness :
    (handleTeacherOffline true BlobRes.fail true true recAfterStart recEnv).final.isRecording = false ∧
    (handleTeacherOffline true BlobRes.fail true true recAfterStart recEnv).final.isSaving = false ∧
    (handleTeacherOffline true BlobRes.fail true true recAfterStart recEnv).final.isStarting = false ∧
    (handleTeacherOffline true BlobRes.fail true true recAfterStart recEnv).final.streamIdx = none ∧
    (handleTeacherOffline true BlobRes.fail true true recAfterStart recEnv).final.recorder = none ∧
    (handleTeacherOffline true BlobRes.fail true true recAfterStart recEnv).final.isTeacherLive = false ∧
    ∀ t ∈ (handleTeacherOffline true BlobRes.fail true true recAfterStart recEnv).env.streams.getD 0 [], t = true :=
  c4_offline_while_recording_releases_all recAfterStart recEnv 0 0 0
    BlobRes.fail true true rfl rfl rfl rfl rfl

theorem reach_of_eq {c c' : Comp} {e e' : Env} (h : Reach c e)
    (h1 : c = c') (h2 : e = e') : Reach c' e' := by
  subst h1; subst h2; exact h

/-- C5 is refuted at a concrete input: an abandoned completion attempt —
`handleRecordingComplete` entered with a closure `isRecording` of `false`
(exactly what the `onended`-registered closure passes) while the reachable
recording state `recAfterStart` still holds the recorder and the stream —
returns with both resources still held, state and environment untouched, no
cleanup, and no user-visible alert: an aborted path of the pipeline that
returns silently with resources still held. -/
theorem c5_counterexample_abandoned_completion_keeps_resources :
    (handleRecordingComplete false (some 0) (BlobRes.ok 5) true true recAfterStart recEnv).final
      = recAfterStart ∧
    (handleRecordingComplete false (some 0) (BlobRes.ok 5) true true recAfterStart recEnv).env
      = recEnv ∧
    recAfterStart.recorder = some 0 ∧
    recAfterStart.streamIdx = some 0 ∧
    ∀ msg, Effect.alert msg ∉
      (handleRecordingComplete false (some 0) (BlobRes.ok 5) true true recAfterStart recEnv).effects := by
  rw [hRC_guard_fail false (some 0) (BlobRes.ok 5) true true recAfterStart recEnv (by decide)]
  exact ⟨rfl, rfl, rfl, rfl, by intro msg; simp⟩

/-- C5 (amended): every error path inside `toggleRecording` and inside the
try/catch/finally of `handleRecordingComplete` releases all resources; the
start failures (device denial, encoder-start failure) and the completion
failures (missing or empty blob, upload failure, persistence failure)
additionally raise a user-visible alert, while a stop failure inside
`toggleRecording` releases resources but signals on the console only. Two
aborted paths are exceptions and do neither: an abandoned completion attempt
(guard failure at entry of `handleRecordingComplete`) returns with resources
untouched and only a console log, and a `stopRecording` failure inside the
presence-inactive handler aborts unhandled, leaving state, resources and
output untouched. -/
theorem c5_amended_error_paths (c : Comp) (e : Env) :
    (∀ na st sp b u p, c.isTeacherLive = true → c.isRecording = false →
       (toggleRecording (MediaRes.denied na) st sp b u p c e).final.streamIdx = none ∧
       (toggleRecording (MediaRes.denied na) st sp b u p c e).final.recorder = none ∧
       (toggleRecording (MediaRes.denied na) st sp b u p c e).final.isStarting = false ∧
       ∃ msg, Effect.alert msg ∈ (toggleRecording (MediaRes.denied na) st sp b u p c e).effects) ∧
    (∀ tracks sp b u p, c.isTeacherLive = true → c.isRecording = false →
       (toggleRecording (MediaRes.granted tracks) false sp b u p c e).final.streamIdx = none ∧
       (toggleRecording (MediaRes.granted tracks) false sp b u p c e).final.recorder = none ∧
       (toggleRecording (MediaRes.granted tracks) false sp b u p c e).final.isStarting = false ∧
       ∃ msg, Effect.alert msg ∈ (toggleRecording (MediaRes.granted tracks) false sp b u p c e).effects) ∧
    (∀ m st b u p, c.isTeacherLive = true → c.isRecording = true → c.recorder.isNone = false →
       (toggleRecording m st false b u p c e).final.streamIdx = none ∧
       (toggleRecording m st false b u p c e).final.recorder = none ∧
       ∃ msg, Effect.consoleError msg ∈ (toggleRecording m st false b u p c e).effects) ∧
    (∀ v w b u p, c.recorder = some v →
       (handleRecordingComplete true (some w) b u p c e).final.streamIdx = none ∧
       (handleRecordingComplete true (some w) b u p c e).final.recorder = none ∧
       (handleRecordingComplete true (some w) b u p c e).final.isSaving = false ∧
       ∃ msg, Effect.alert msg ∈ (handleRecordingComplete true (some w) b u p c e).effects) ∧
    (∀ closTid b u p,
       (handleRecordingComplete false closTid b u p c e).final = c ∧
       (handleRecordingComplete false closTid b u p c e).env = e ∧
       ∀ msg, Effect.alert msg ∉ (handleRecordingComplete false closTid b u p c e).effects) ∧
    (∀ b u p, c.isRecording = true → c.isSaving = false → c.recorder.isNone = false →
       (handleTeacherOffline false b u p c e).final = c ∧
       (handleTeacherOffline false b u p c e).env = e ∧
       ∀ msg, Effect.alert msg ∉ (handleTeacherOffline false b u p c e).effects) := by
  refine ⟨?_, ?_, ?_, ?_, ?_, ?_⟩
  · intro na st sp b u p hlive hrec
    simp only [toggleRecording]
    rw [if_neg (by simp [hlive]), if_neg (by simp [hrec])]
    rcases na with _ | _
    · exact ⟨rfl, rfl, rfl, ⟨"Failed to start recording. Please try again.", by simp⟩⟩
    · exact ⟨rfl, rfl, rfl, ⟨"Please allow screen recording to continue.", by simp⟩⟩
  · intro tracks sp b u p hlive hrec
    simp only [toggleRecording]
    rw [if_neg (by simp [hlive]), if_neg (by simp [hrec])]
    exact ⟨rfl, rfl, rfl, ⟨"Failed to start recording. Please try again.", by simp⟩⟩
  · intro m st b u p hlive hrec hrd
    simp only [toggleRecording]
    rw [if_neg (by simp [hlive]), if_pos (by simp [hrec]), if_neg (by simp [hrd])]
    rw [if_pos (by rfl : (!false : Bool) = true)]
    exact ⟨rfl, rfl, ⟨"Error stopping recording", by simp⟩⟩
  · intro v w b u p hrd
    have hchar := hRC_run_char (some w) b u p c e v w hrd rfl
    rw [hchar.1]
    obtain ⟨msg, hmsg⟩ := hchar.2.2.2
    exact ⟨rfl, rfl, rfl, ⟨msg, hmsg⟩⟩
  · intro closTid b u p
    rw [hRC_guard_fail false closTid b u p c e (by simp)]
    exact ⟨rfl, rfl, by intro msg; simp⟩
  · intro b u p hrec hsav hrd
    have hguard : (c.isRecording && !c.isSaving && !c.recorder.isNone) = true := by
      simp [hrec, hsav, hrd]
    simp only [handleTeacherOffline]
    rw [if_pos hguard, if_pos (by rfl : (!false : Bool) = true)]
    exact ⟨rfl, rfl, by intro msg; simp⟩

/-- Witness for the amended C5, instantiated at the reachable recording state
`recAfterStart`: the upload-failure completion path releases and alerts; the
abandoned completion attempt and the offline-handler stop failure leave the
state untouched with no alert. -/
theorem c5_amended_error_paths_witness :
    ((handleRecordingComplete true (some 0) (BlobRes.ok 9) false true recAfterStart recEnv).final.streamIdx = none ∧
     (handleRecordingComplete true (some 0) (BlobRes.ok 9) false true recAfterStart recEnv).final.recorder = none ∧
     (handleRecordingComplete true (some 0) (BlobRes.ok 9) false true recAfterStart recEnv).final.isSaving = false ∧
     ∃ msg, Effect.alert msg ∈ (handleRecordingComplete true (some 0) (BlobRes.ok 9) false true recAfterStart recEnv).effects) ∧
    ((handleRecordingComplete false (some 3) BlobRes.fail true true recAfterStart recEnv).final = recAfterStart ∧
     (handleRecordingComplete false (some 3) BlobRes.fail true true recAfterStart recEnv).env = recEnv ∧
     ∀ msg, Effect.alert msg ∉ (handleRecordingComplete false (some 3) BlobRes.fail true true recAfterStart recEnv).effects) ∧
    ((handleTeacherOffline false BlobRes.fail true true recAfterStart recEnv).final = recAfterStart ∧
     (handleTeacherOffline false BlobRes.fail true true recAfterStart recEnv).env = recEnv ∧
     ∀ msg, Effect.alert msg ∉ (handleTeacherOffline false BlobRes.fail true true recAfterStart recEnv).effects) :=
  ⟨(c5_amended_error_paths recAfterStart recEnv).2.2.2.1 0 0 (BlobRes.ok 9) false true rfl,
   (c5_amended_error_paths recAfterStart recEnv).2.2.2.2.1 (some 3) BlobRes.fail true true,
   (c5_amended_error_paths recAfterStart recEnv).2.2.2.2.2 BlobRes.fail true true rfl rfl rfl⟩

/-- C6 is refuted at a concrete reachable state: `staleConfig` (reachable by
teacher 1 coming online, the canvas mounting, and an update with serialized
data `"stale"` arriving) holds a stale snapshot, and `handleTeacherOnline`
for a new presenter leaves `lastUpdateRef` exactly as it was — the stored
serialized stroke state is not reset. -/
theorem c6_counterexample_snapshot_not_cleared :
    (∃ e, Reach staleConfig e) ∧
    staleConfig.lastUpdate = "stale" ∧
    (handleTeacherOnline 2 staleConfig initEnv).final.lastUpdate = "stale" ∧
    (handleTeacherOnline 2 staleConfig initEnv).final.lastUpdate ≠ "[]" := by
  refine ⟨⟨initEnv, ?_⟩, rfl, rfl, by decide⟩
  exact reach_of_eq
    (Reach.step (Reach.step (Reach.step Reach.init (Event.online 1)) (Event.mount true))
      (Event.update ("stale") true))
    (by decide) (by decide)

/-- C6 (amended): on a `presenceActive` event the coordinator marks the
presenter live, stores the presenter id, and joins that presenter's update
channel (emits `joinTeacherRoom`); it does not clear the stored whiteboard
snapshot nor the canvas — `lastUpdateRef` and the canvas content are left
unchanged (the stored serialized state is only ever overwritten by inbound
update events). -/
theorem c6_amended_online_joins_without_clearing (tid : Nat) (c : Comp) (e : Env) :
    (handleTeacherOnline tid c e).final.isTeacherLive = true ∧
    (handleTeacherOnline tid c e).final.currentTeacherId = some tid ∧
    (handleTeacherOnline tid c e).effects = [Effect.emitJoin tid] ∧
    (handleTeacherOnline tid c e).final.lastUpdate = c.lastUpdate ∧
    (handleTeacherOnline tid c e).final.canvasPaths = c.canvasPaths :=
  ⟨rfl, rfl, rfl, rfl, rfl⟩

/-- C7 is refuted at a concrete reachable state: in the initial configuration
the canvas is not mounted (`canvasRef.current` is null — the component
renders no canvas while no teacher is live), and an inbound whiteboard
update is then dropped entirely: the stored snapshot keeps its old value
instead of being overwritten with the event's data. -/
theorem c7_counterexample_update_dropped_when_unmounted :
    Reach init initEnv ∧
    init.canvasMounted = false ∧
    (handleWhiteboardUpdate ("new") true init initEnv).final.lastUpdate = "[]" ∧
    (handleWhiteboardUpdate ("new") true init initEnv).final.lastUpdate ≠ "new" :=
  ⟨Reach.init, rfl, by decide, by decide⟩

/-- C7 (amended): when the canvas is mounted, every inbound whiteboard update
overwrites the stored snapshot with the event's serialized data — regardless
of the recording flags (which it leaves untouched, along with the stream and
recorder refs) and regardless of whether the data parses; when the canvas is
not mounted, the event is dropped entirely (no state change, no effect). -/
theorem c7_amended_update_overwrites_when_mounted
    (data : String) (parses : Bool) (c : Comp) (e : Env) :
    (c.canvasMounted = true →
       (handleWhiteboardUpdate data parses c e).final.lastUpdate = data ∧
       (handleWhiteboardUpdate data parses c e).final.isRecording = c.isRecording ∧
       (handleWhiteboardUpdate data parses c e).final.isSaving = c.isSaving ∧
       (handleWhiteboardUpdate data parses c e).final.isStarting = c.isStarting ∧
       (handleWhiteboardUpdate data parses c e).final.streamIdx = c.streamIdx ∧
       (handleWhiteboardUpdate data parses c e).final.recorder = c.recorder) ∧
    (c.canvasMounted = false →
       (handleWhiteboardUpdate data parses c e).final = c ∧
       (handleWhiteboardUpdate data parses c e).effects = []) := by
  constructor
  · intro hm
    simp only [handleWhiteboardUpdate]
    rw [if_neg (by simp [hm])]
    split
    · split
      · exact ⟨rfl, rfl, rfl, rfl, rfl, rfl⟩
      · exact ⟨rfl, rfl, rfl, rfl, rfl, rfl⟩
    · exact ⟨rfl, rfl, rfl, rfl, rfl, rfl⟩
  · intro hm
    simp only [handleWhiteboardUpdate]
    rw [if_pos (by simp [hm])]
    exact ⟨rfl, rfl⟩

/-- Witness for the amended C7: a mounted reachable state (`staleConfig`)
where the update overwrites the snapshot, and the unmounted initial state
where the update is dropped. -/
theorem c7_amended_update_overwrites_when_mounted_witness :
    ((handleWhiteboardUpdate ("n2") false staleConfig initEnv).final.lastUpdate = "n2" ∧
     (handleWhiteboardUpdate ("n2") false staleConfig initEnv).final.isRecording = staleConfig.isRecording ∧
     (handleWhiteboardUpdate ("n2") false staleConfig initEnv).final.isSaving = staleConfig.isSaving ∧
     (handleWhiteboardUpdate ("n2") false staleConfig initEnv).final.isStarting = staleConfig.isStarting ∧
     (handleWhiteboardUpdate ("n2") false staleConfig initEnv).final.streamIdx = staleConfig.streamIdx ∧
     (handleWhiteboardUpdate ("n2") false staleConfig initEnv).final.recorder = staleConfig.recorder) ∧
    ((handleWhiteboardUpdate ("n2") false init initEnv).final = init ∧
     (handleWhiteboardUpdate ("n2") false init initEnv).effects = []) :=
  ⟨(c7_amended_update_overwrites_when_mounted ("n2") false staleConfig initEnv).1 rfl,
   (c7_amended_update_overwrites_when_mounted ("n2") false init initEnv).2 rfl⟩

theorem filterMap_eq_map_of_mem {α β : Type} (f : α → Option β) (g : α → β)
    (l : List α) (h : ∀ x ∈ l, f x = some (g x)) : l.filterMap f = l.map g := by
  induction l with
  | nil => rfl
  | cons a t ih =>
    rw [List.filterMap_cons, h a (List.mem_cons_self a t), List.map_cons,
        ih fun x hx => h x (List.mem_cons_of_mem a hx)]

theorem createFrame_strokes_of_nonempty (paths : List SPath) (q : ℚ)
    (h : ∀ p ∈ paths, p.points ≠ []) :
    (createFrame paths q).strokes = paths.enum.map fun ip =>
      { strokeColor := ip.2.strokeColor, strokeWidth := ip.2.strokeWidth,
        pts := ip.2.points.take
          (pointCount ip.2.points.length (pathProgress q ip.1 paths.length)) } := by
  unfold createFrame
  apply filterMap_eq_map_of_mem
  intro ip hip
  have hmem : ip.2 ∈ paths := List.snd_mem_of_mem_enum hip
  unfold drawPath
  rw [if_neg (by simpa using h ip.2 hmem)]

theorem pointCount_one (len : Nat) : pointCount len 1 = len := by
  simp [pointCount]

theorem pointCount_zero (len : Nat) : pointCount len 0 = 0 := by
  simp [pointCount]

theorem pathProgress_boundary_full (k n : Nat) (hk1 : 1 ≤ k) (hk : k < n) :
    pathProgress ((k : ℚ) / (n : ℚ)) (k - 1) n = 1 := by
  have hn0 : (0 : ℚ) < (n : ℚ) := by
    have hn : 0 < n := lt_of_le_of_lt (Nat.zero_le k) hk
    exact_mod_cast hn
  have hne : (n : ℚ) ≠ 0 := ne_of_gt hn0
  have hcast : ((k - 1 : Nat) : ℚ) = (k : ℚ) - 1 := by
    push_cast [Nat.cast_sub hk1]
    ring
  unfold pathProgress
  rw [hcast, sub_add_cancel]
  rw [if_neg (lt_irrefl _), if_neg (not_lt.mpr ((div_le_div_iff_of_pos_right hn0).mpr (by linarith)))]
  rw [div_mul_cancel₀ _ hne]
  ring

theorem pathProgress_boundary_zero (k n : Nat) (hk : k < n) :
    pathProgress ((k : ℚ) / (n : ℚ)) k n = 0 := by
  have hn0 : (0 : ℚ) < (n : ℚ) := by
    have hn : 0 < n := lt_of_le_of_lt (Nat.zero_le k) hk
    exact_mod_cast hn
  have hne : (n : ℚ) ≠ 0 := ne_of_gt hn0
  unfold pathProgress
  rw [if_neg (not_lt.mpr ((div_le_div_iff_of_pos_right hn0).mpr (by linarith))), if_neg (lt_irrefl _)]
  rw [div_mul_cancel₀ _ hne]
  ring

/-- C8: at the slot boundary `k/N` (1 ≤ k ≤ N-1, every stroke non-empty),
stroke `k-1`'s computed reveal fraction is exactly 1 and its rendered entry
in the frame holds all of its points, while stroke `k`'s reveal fraction is
exactly 0 and its rendered entry holds zero points. -/
theorem c8_slot_boundary_reveal (paths : List SPath) (k : Nat)
    (hk1 : 1 ≤ k) (hk2 : k ≤ paths.length - 1)
    (hne : ∀ p ∈ paths, p.points ≠ []) :
    pathProgress ((k : ℚ) / (paths.length : ℚ)) (k - 1) paths.length = 1 ∧
    pathProgress ((k : ℚ) / (paths.length : ℚ)) k paths.length = 0 ∧
    ((createFrame paths ((k : ℚ) / (paths.length : ℚ))).strokes.getD (k - 1)
        (Rendered.mk ("") 0 [])).pts
      = (paths.getD (k - 1) (SPath.mk true ("") 0 [])).points ∧
    ((createFrame paths ((k : ℚ) / (paths.length : ℚ))).strokes.getD k
        (Rendered.mk ("") 0 [])).pts = [] := by
  have hlen : 0 < paths.length := by omega
  have hk : k < paths.length := by omega
  have hk1' : k - 1 < paths.length := by omega
  have h1 := pathProgress_boundary_full k paths.length hk1 hk
  have h0 := pathProgress_boundary_zero k paths.length hk
  have hchar := createFrame_strokes_of_nonempty paths ((k : ℚ) / (paths.length : ℚ)) hne
  refine ⟨h1, h0, ?_, ?_⟩
  · rw [hchar, List.getD_eq_getElem?_getD, List.getElem?_map, List.getElem?_enum,
        List.getElem?_eq_getElem hk1']
    simp only [Option.map_some', Option.getD_some]
    rw [h1, pointCount_one, List.take_length,
        List.getD_eq_getElem?_getD, List.getElem?_eq_getElem hk1']
    rfl
  · rw [hchar, List.getD_eq_getElem?_getD, List.getElem?_map, List.getElem?_enum,
        List.getElem?_eq_getElem hk]
    simp only [Option.map_some', Option.getD_some]
    rw [h0, pointCount_zero, List.take_zero]

/-- Witness for C8 at a concrete input: three one-segment strokes and the
slot boundary k = 1. -/
theorem c8_slot_boundary_reveal_witness :
    pathProgress ((1 : ℚ) / (3 : ℚ)) 0 3 = 1 ∧
    pathProgress ((1 : ℚ) / (3 : ℚ)) 1 3 = 0 ∧
    ((createFrame [SPath.mk true ("a") 1 [Pt.mk 0 0, Pt.mk 1 1],
                   SPath.mk true ("b") 1 [Pt.mk 2 2, Pt.mk 3 3],
                   SPath.mk true ("c") 1 [Pt.mk 4 4, Pt.mk 5 5]]
        ((1 : ℚ) / (3 : ℚ))).strokes.getD 0 (Rendered.mk ("") 0 [])).pts
      = [Pt.mk 0 0, Pt.mk 1 1] ∧
    ((createFrame [SPath.mk true ("a") 1 [Pt.mk 0 0, Pt.mk 1 1],
                   SPath.mk true ("b") 1 [Pt.mk 2 2, Pt.mk 3 3],
                   SPath.mk true ("c") 1 [Pt.mk 4 4, Pt.mk 5 5]]
        ((1 : ℚ) / (3 : ℚ))).strokes.getD 1 (Rendered.mk ("") 0 [])).pts = [] := by
  have h := c8_slot_boundary_reveal
    [SPath.mk true ("a") 1 [Pt.mk 0 0, Pt.mk 1 1],
     SPath.mk true ("b") 1 [Pt.mk 2 2, Pt.mk 3 3],
     SPath.mk true ("c") 1 [Pt.mk 4 4, Pt.mk 5 5]] 1
    (by decide) (by decide) (by decide)
  simpa using h

/-- C9: the synthesizer computes `totalFrames = frameRate × duration`
(30 × 5 = 150), generates exactly one frame for every index `i` in the
inclusive range `[0, totalFrames]` — 151 frames — with frame `i` rendered at
progress `i / totalFrames`, and writes them to the encoder in strictly
increasing index order `0, 1, …, totalFrames`. -/
theorem c9_frame_generation_schedule (paths : List SPath) :
    totalFrames = frameRate * videoSeconds ∧
    totalFrames + 1 = 151 ∧
    (recordStrokes paths).frames.length = totalFrames + 1 ∧
    (∀ i, i ≤ totalFrames →
       (recordStrokes paths).frames[i]? =
         some (createFrame paths (((i : Nat) : ℚ) / ((totalFrames : Nat) : ℚ)))) ∧
    (recordStrokes paths).written = List.range (totalFrames + 1) ∧
    List.Pairwise (fun a b => a < b) (recordStrokes paths).written := by
  have hframes : (recordStrokes paths).frames
      = (List.range (totalFrames + 1)).map
          (fun i => createFrame paths (((i : Nat) : ℚ) / ((totalFrames : Nat) : ℚ))) := rfl
  have hlen : (recordStrokes paths).frames.length = totalFrames + 1 := by
    rw [hframes, List.length_map, List.length_range]
  have hwr : (recordStrokes paths).written = List.range (totalFrames + 1) := by
    show List.range (recordStrokes paths).frames.length = _
    rw [hlen]
  refine ⟨rfl, rfl, hlen, ?_, hwr, ?_⟩
  · intro i hi
    rw [hframes, List.getElem?_map, List.getElem?_range (by omega : i < totalFrames + 1)]
    rfl
  · rw [hwr]
    exact List.pairwise_lt_range (totalFrames + 1)

/-- Witness for C9: the schedule instantiated at the empty stroke list and
the last frame index 150. -/
theorem c9_frame_generation_schedule_witness :
    (recordStrokes []).frames[150]? =
      some (createFrame [] (((150 : Nat) : ℚ) / ((totalFrames : Nat) : ℚ))) :=
  (c9_frame_generation_schedule []).2.2.2.1 150 (by decide)

/-- C10: called with an empty stroke list the synthesizer produces only blank
background frames — all `totalFrames + 1 = 151` of them — and still produces
the encoded output container of the nominal length (151 frames at the
configured rate 30, about 5 s); moreover any stroke with zero points is
skipped by `drawPath` (it returns nothing and so contributes nothing to any
frame). -/
theorem c10_empty_strokes_blank_frames :
    (recordStrokes []).frames = List.replicate (totalFrames + 1) { strokes := [] } ∧
    (recordStrokes []).video = { frameCount := totalFrames + 1, rate := frameRate } ∧
    ∀ (p : SPath) (q : ℚ), p.points = [] → drawPath p q = none := by
  have hframes : (recordStrokes []).frames
      = (List.range (totalFrames + 1)).map
          (fun i => createFrame [] (((i : Nat) : ℚ) / ((totalFrames : Nat) : ℚ))) := rfl
  have hlen : (recordStrokes []).frames.length = totalFrames + 1 := by
    rw [hframes, List.length_map, List.length_range]
  refine ⟨?_, ?_, ?_⟩
  · rw [hframes]
    rw [show (fun i : Nat => createFrame [] (((i : Nat) : ℚ) / ((totalFrames : Nat) : ℚ)))
          = Function.const Nat ({ strokes := [] } : Frame) from rfl]
    rw [List.map_const, List.length_range]
  · show VideoOut.mk (recordStrokes []).frames.length frameRate = _
    rw [hlen]
  · intro p q hp
    simp [drawPath, hp]

/-- Witness for C10: a concrete zero-point stroke is skipped. -/
theorem c10_empty_strokes_blank_frames_witness :
    drawPath (SPath.mk true ("black") 4 []) (1 / 2) = none :=
  c10_empty_strokes_blank_frames.2.2 (SPath.mk true ("black") 4 []) (1 / 2) rfl

end Digiboard
